import Mathlib

/-!
# Verification of the supabase-rag-engine retrieval and insight pipeline

Shallow embedding of the two edge functions of the repository:

* `query-knowledge-base` (source file `src/unnamed/part_000`): hybrid
  retrieval with Reciprocal Rank Fusion, post-filtering, fallback search,
  document grouping, relevance density, and document-level sorting.
* `generate-rag-insights` (source file
  `src/supabase/functions/generate-rag-insights/index.ts`): cache-key
  derivation and citation-to-document-id resolution.

Scores are modelled as rationals, JavaScript `Map`s as association lists in
insertion order (matching JS `Map` iteration semantics), and the stable
`Array.prototype.sort` as `List.mergeSort`.  External calls (the two SQL
search functions and the fallback retrievals) are inputs of the embedded
pipeline.  ISO date strings inside chunk metadata are modelled by their
timeline values (integers); the date parsing itself is outside the model.
-/

namespace RagEngine

/-- Metadata attached to a chunk.  Only the two fields the date filter
reads (`metadata.created_at`, `metadata.date`) are modelled; dates are
represented by their timeline values. -/
structure Metadata where
  created_at : Option Int
  date : Option Int
deriving Repr, DecidableEq

/-- A row returned by the SQL function `search_document_chunks_semantic`
(migration `20250101000005_add_density_calculation.sql`): chunk fields
plus `similarity_score` and `total_chunk_count`.  `total_chunk_count` is
optional in the TypeScript handler (`?.` safeguard). -/
structure SemanticRow where
  id : String
  document_id : String
  document_title : String
  document_type : String
  chunk_text : String
  chunk_order : Nat
  metadata : Metadata
  similarity_score : ℚ
  total_chunk_count : Option Nat
deriving Repr, DecidableEq

/-- A row returned by the SQL function `search_document_chunks_keyword`:
chunk fields plus `relevance_score` and `total_chunk_count`. -/
structure KeywordRow where
  id : String
  document_id : String
  document_title : String
  document_type : String
  chunk_text : String
  chunk_order : Nat
  metadata : Metadata
  relevance_score : ℚ
  total_chunk_count : Option Nat
deriving Repr, DecidableEq

/-- The `search_type` tag of a fused result (`part_000` lines 267, 282,
292 for the primary pass and 389, 402, 410 for the fallback pass). -/
inductive SearchType where
  | semantic
  | keyword
  | hybrid
  | semantic_fallback
  | keyword_fallback
  | hybrid_fallback
deriving Repr, DecidableEq

/-- An entry of the fusion `resultMap` (`part_000` lines 256-300).  The JS
object spread carries all original row fields; fields a given entry never
received (e.g. `relevance_score` on a semantic-only entry) are `none` /
`false`, matching JS `undefined` falsiness. -/
structure FusedHit where
  id : String
  document_id : String
  document_title : String
  document_type : String
  chunk_text : String
  chunk_order : Nat
  metadata : Metadata
  similarity : ℚ
  rrf_score : ℚ
  semantic_rank : Option Nat
  keyword_rank : Option Nat
  search_type : SearchType
  raw_semantic_score : Option ℚ
  keyword_match : Bool
  similarity_score : Option ℚ
  relevance_score : Option ℚ
  total_chunk_count : Option Nat
deriving Repr, DecidableEq

/-- `DEFAULT_SIMILARITY_THRESHOLD` (`part_000` line 9, env default 0.6). -/
def DEFAULT_SIMILARITY_THRESHOLD : ℚ := 6/10

/-- `DEFAULT_MAX_CHUNKS` (`part_000` line 10, env default 50). -/
def DEFAULT_MAX_CHUNKS : Nat := 50

/-- `DEFAULT_RRF_K_VALUE` (`part_000` line 11, env default 10). -/
def DEFAULT_RRF_K_VALUE : Nat := 10

/-- `MIN_RESULTS_THRESHOLD` (`part_000` line 350). -/
def MIN_RESULTS_THRESHOLD : Nat := 3

/-- The RRF contribution `1 / (DEFAULT_RRF_K_VALUE + index)` of a hit at
0-based rank `index` (`part_000` lines 260, 275, 383, 396). -/
def rrfContribution (index : Nat) : ℚ :=
  1 / ((DEFAULT_RRF_K_VALUE : ℚ) + (index : ℚ))

/-- The fusion entry produced for a semantic row at 0-based rank `i`
(`part_000` lines 262-270; fallback variant lines 384-392, which differ
only in the `search_type` tag). -/
def mkSemEntry (fallback : Bool) (i : Nat) (r : SemanticRow) : FusedHit :=
  { id := r.id
    document_id := r.document_id
    document_title := r.document_title
    document_type := r.document_type
    chunk_text := r.chunk_text
    chunk_order := r.chunk_order
    metadata := r.metadata
    similarity := r.similarity_score
    rrf_score := rrfContribution i
    semantic_rank := some (i + 1)
    keyword_rank := none
    search_type := if fallback then .semantic_fallback else .semantic
    raw_semantic_score := some r.similarity_score
    keyword_match := false
    similarity_score := some r.similarity_score
    relevance_score := none
    total_chunk_count := r.total_chunk_count }

/-- The fusion entry produced for a keyword row at 0-based rank `i` that
was not already in the map (`part_000` lines 286-294; fallback variant
lines 404-412). -/
def mkKeyEntry (fallback : Bool) (i : Nat) (r : KeywordRow) : FusedHit :=
  { id := r.id
    document_id := r.document_id
    document_title := r.document_title
    document_type := r.document_type
    chunk_text := r.chunk_text
    chunk_order := r.chunk_order
    metadata := r.metadata
    similarity := r.relevance_score
    rrf_score := rrfContribution i
    semantic_rank := none
    keyword_rank := some (i + 1)
    search_type := if fallback then .keyword_fallback else .keyword
    raw_semantic_score := none
    keyword_match := true
    similarity_score := none
    relevance_score := some r.relevance_score
    total_chunk_count := r.total_chunk_count }

/-- In-place merge of a keyword hit at 0-based rank `i` into an existing
map entry (`part_000` lines 277-283; fallback variant lines 398-402). -/
def combineKeyword (fallback : Bool) (i : Nat) (e : FusedHit) : FusedHit :=
  { e with
    rrf_score := e.rrf_score + rrfContribution i
    keyword_match := true
    keyword_rank := some (i + 1)
    search_type := if fallback then .hybrid_fallback else .hybrid }

/-- JS `Map.set` on a map keyed by `id`, as an insertion-ordered
association list: replace in place if the key exists, else append. -/
def mapSet (m : List FusedHit) (e : FusedHit) : List FusedHit :=
  if m.any (fun x => x.id == e.id) then
    m.map (fun x => if x.id == e.id then e else x)
  else
    m ++ [e]

/-- `semanticResults.forEach((result, index) => resultMap.set(...))`
(`part_000` lines 259-271), with the running 0-based `index`. -/
def semanticPassGo (fallback : Bool) : Nat → List FusedHit → List SemanticRow → List FusedHit
  | _, m, [] => m
  | i, m, r :: rest => semanticPassGo fallback (i + 1) (mapSet m (mkSemEntry fallback i r)) rest

/-- One step of the keyword pass: merge into the existing entry if the id
is present, else append a new keyword entry (`part_000` lines 274-296). -/
def applyKeyword (fallback : Bool) (i : Nat) (m : List FusedHit) (r : KeywordRow) : List FusedHit :=
  if m.any (fun x => x.id == r.id) then
    m.map (fun x => if x.id == r.id then combineKeyword fallback i x else x)
  else
    m ++ [mkKeyEntry fallback i r]

/-- `keywordResults.forEach((result, index) => ...)` (`part_000` lines
274-296), with the running 0-based `index`. -/
def keywordPassGo (fallback : Bool) : Nat → List FusedHit → List KeywordRow → List FusedHit
  | _, m, [] => m
  | i, m, r :: rest => keywordPassGo fallback (i + 1) (applyKeyword fallback i m r) rest

/-- Descending comparison on `rrf_score` used by the fused-list sort
(`part_000` lines 299-300 and 417-418): JS stable sort with comparator
`(a, b) => b.rrf_score - a.rrf_score`. -/
def rrfGE (a b : FusedHit) : Bool := decide (b.rrf_score ≤ a.rrf_score)

/-- RRF fusion of the two retriever outputs (`part_000` lines 256-300;
the fallback pass, lines 380-418, is the same code with `*_fallback`
tags, selected by the `fallback` flag). -/
def fuseResults (fallback : Bool) (sem : List SemanticRow) (key : List KeywordRow) : List FusedHit :=
  let m := semanticPassGo fallback 0 [] sem
  let m := keywordPassGo fallback 0 m key
  m.mergeSort rrfGE

/-- `filters.dateRange` of a search request (`part_000` lines 26-29),
with dates modelled by timeline values. -/
structure DateRange where
  start : Option Int
  stop : Option Int
deriving Repr, DecidableEq

/-- `filters` of a search request (`part_000` lines 23-30). -/
structure Filters where
  document_id : Option (List String)
  document_type : Option (List String)
  dateRange : Option DateRange
deriving Repr, DecidableEq

/-- The parsed body of a `query-knowledge-base` request (`part_000`
interface `SearchRequest`, lines 20-37).  `Option` models absent JSON
fields. -/
structure SearchRequest where
  user_query : String
  filters : Option Filters
  limit : Option Nat
  min_similarity : Option ℚ
  include_public_only : Option Bool
  debug : Option Bool
  enable_fallback : Option Bool
  enable_density_calc : Option Bool
deriving Repr, DecidableEq

/-- JS `body.limit || DEFAULT_MAX_CHUNKS` (`part_000` line 158): `0` and
absent are both falsy and fall back to the default. -/
def jsOrNat (v : Option Nat) (d : Nat) : Nat :=
  match v with
  | some n => if n = 0 then d else n
  | none => d

/-- JS `body.min_similarity || DEFAULT_SIMILARITY_THRESHOLD`
(`part_000` line 159): `0` and absent are both falsy. -/
def jsOrRat (v : Option ℚ) (d : ℚ) : ℚ :=
  match v with
  | some q => if q = 0 then d else q
  | none => d

/-- The resolved `limit` of a request (`part_000` line 158). -/
def resolvedLimit (body : SearchRequest) : Nat :=
  jsOrNat body.limit DEFAULT_MAX_CHUNKS

/-- The resolved `minSimilarity` of a request (`part_000` line 159). -/
def resolvedMinSimilarity (body : SearchRequest) : ℚ :=
  jsOrRat body.min_similarity DEFAULT_SIMILARITY_THRESHOLD

/-- The date a chunk exposes to the date filter:
`result.metadata?.created_at || result.metadata?.date`
(`part_000` lines 334, 341). -/
def chunkDate (r : FusedHit) : Option Int :=
  r.metadata.created_at.orElse (fun _ => r.metadata.date)

/-- Stage 1 of the post-filter (`part_000` lines 318-322): keep only the
requested document ids, when a non-empty id list was supplied. -/
def filterByDocId (f : Filters) (l : List FusedHit) : List FusedHit :=
  match f.document_id with
  | some ids => if ids.length > 0 then l.filter (fun r => ids.contains r.document_id) else l
  | none => l

/-- Stage 2 of the post-filter (`part_000` lines 324-328): filter by
document type when the type list is non-empty and the current list is
non-empty (every modelled row carries `document_type`, so the JS
`'document_type' in filteredResults[0]` check is true on non-empty
lists). -/
def filterByDocType (f : Filters) (l : List FusedHit) : List FusedHit :=
  match f.document_type with
  | some ts =>
      if ts.length > 0 ∧ l.length > 0 then l.filter (fun r => ts.contains r.document_type)
      else l
  | none => l

/-- Stage 3 of the post-filter (`part_000` lines 330-345): the date
range; chunks without a date pass through. -/
def filterByDate (f : Filters) (l : List FusedHit) : List FusedHit :=
  match f.dateRange with
  | none => l
  | some dr =>
    let l' := match dr.start with
      | some s => l.filter (fun r => match chunkDate r with
          | some d => decide (s ≤ d)
          | none => true)
      | none => l
    match dr.stop with
    | some e => l'.filter (fun r => match chunkDate r with
        | some d => decide (d ≤ e)
        | none => true)
    | none => l'

/-- The post-filter over the fused list (`part_000` lines 316-346), the
three stages in source order. -/
def applyFilters (filters : Option Filters) (l : List FusedHit) : List FusedHit :=
  match filters with
  | none => l
  | some f => filterByDate f (filterByDocType f (filterByDocId f l))

/-- Outcome of one RPC to a search function: the `{ data, error }` shape
returned by `supabase.rpc` (`part_000` lines 168-186). -/
inductive RpcOutcome (ρ : Type) where
  | err : RpcOutcome ρ
  | ok : List ρ → RpcOutcome ρ
deriving Repr, DecidableEq

/-- The fallback retrieval backend (`part_000` lines 358-372): the
semantic call, parameterized by the `similarity_threshold` and
`max_results` the handler passes; the keyword call, parameterized by
`max_results`; and whether the awaited call throws (caught at line 423,
in which case the primary results are kept). -/
structure FallbackBackend where
  sem : ℚ → Nat → RpcOutcome SemanticRow
  key : Nat → RpcOutcome KeywordRow
  thrown : Bool

/-- The similarity threshold of the fallback pass:
`Math.max(0.3, minSimilarity - 0.2)` (`part_000` line 361). -/
def fallbackThreshold (minSimilarity : ℚ) : ℚ :=
  max (3/10) (minSimilarity - 2/10)

/-- The fallback pass (`part_000` lines 348-427): when enabled and the
filtered results are below `MIN_RESULTS_THRESHOLD`, re-run both
retrievals with the relaxed threshold and doubled limit; on a thrown or
returned error keep the primary results (`fallbackUsed` stays false).
Returns `(fallbackUsed, fallbackResults)`. -/
def runFallback (body : SearchRequest) (backend : FallbackBackend)
    (filteredResults : List FusedHit) : Bool × List FusedHit :=
  let enableFallback := body.enable_fallback ≠ some false
  if enableFallback ∧ filteredResults.length < MIN_RESULTS_THRESHOLD then
    if backend.thrown then (false, [])
    else
      match backend.sem (fallbackThreshold (resolvedMinSimilarity body)) (resolvedLimit body * 2),
            backend.key (resolvedLimit body * 2) with
      | .ok bs, .ok bk => (true, fuseResults true bs bk)
      | _, _ => (false, [])
  else (false, [])

/-- Union of primary and fallback results (`part_000` lines 429-438):
fallback entries whose `id` already occurs in the primary filtered
results are dropped. -/
def combineWithFallback (filteredResults : List FusedHit)
    (fallbackUsed : Bool) (fallbackResults : List FusedHit) : List FusedHit :=
  if fallbackUsed ∧ fallbackResults.length > 0 then
    let existingIds := filteredResults.map (fun r => r.id)
    filteredResults ++ fallbackResults.filter (fun r => ¬ existingIds.contains r.id)
  else filteredResults

/-- The `_debug_scores` object attached to a chunk when `debug` is true
(`part_000` lines 472-483).  Its `raw_semantic_score` and
`raw_keyword_score` read the spread-in row fields `similarity_score` and
`relevance_score`, which may be absent. -/
structure DebugScores where
  search_type : SearchType
  semantic_rank : Option Nat
  keyword_rank : Option Nat
  rrf_score : ℚ
  keyword_match : Bool
  raw_semantic_score : Option ℚ
  raw_keyword_score : Option ℚ
deriving Repr, DecidableEq

/-- The chunk object pushed into a document entry (`part_000` lines
460-485). -/
structure ChunkOut where
  id : String
  text : String
  order : Nat
  metadata : Metadata
  similarity : ℚ
  raw_semantic_score : Option ℚ
  keyword_rank : Option Nat
  total_chunk_count : Option Nat
  debug_scores : Option DebugScores
deriving Repr, DecidableEq

/-- A grouped per-document result (`part_000` lines 446-454). -/
structure DocumentResult where
  document_id : String
  document_title : String
  document_type : String
  chunks : List ChunkOut
  best_rrf_score : ℚ
  best_raw_similarity : ℚ
  relevance_density : ℚ
deriving Repr, DecidableEq

/-- Build the chunk object for a fused hit (`part_000` lines 460-483). -/
def mkChunkOut (debug : Bool) (r : FusedHit) : ChunkOut :=
  { id := r.id
    text := r.chunk_text
    order := r.chunk_order
    metadata := r.metadata
    similarity := r.rrf_score
    raw_semantic_score := r.raw_semantic_score
    keyword_rank := r.keyword_rank
    total_chunk_count := r.total_chunk_count
    debug_scores :=
      if debug then
        some { search_type := r.search_type
               semantic_rank := r.semantic_rank
               keyword_rank := r.keyword_rank
               rrf_score := r.rrf_score
               keyword_match := r.keyword_match
               raw_semantic_score := r.similarity_score
               raw_keyword_score := r.relevance_score }
      else none }

/-- The fresh document entry created on first sight of a document id
(`part_000` lines 445-454). -/
def freshDoc (r : FusedHit) : DocumentResult :=
  { document_id := r.document_id
    document_title := r.document_title
    document_type := r.document_type
    chunks := []
    best_rrf_score := 0
    best_raw_similarity := 0
    relevance_density := 0 }

/-- Mutation of a document entry by one of its hits (`part_000` lines
485-497): push the chunk, raise `best_rrf_score`, and raise
`best_raw_similarity` when the hit carries a truthy raw semantic score
(JS `result.raw_semantic_score && ...`: absent and `0` are falsy). -/
def updateDoc (r : FusedHit) (c : ChunkOut) (d : DocumentResult) : DocumentResult :=
  { d with
    chunks := d.chunks ++ [c]
    best_rrf_score := if d.best_rrf_score < r.rrf_score then r.rrf_score else d.best_rrf_score
    best_raw_similarity :=
      match r.raw_semantic_score with
      | some s => if s ≠ 0 ∧ d.best_raw_similarity < s then s else d.best_raw_similarity
      | none => d.best_raw_similarity }

/-- Update the (unique) entry of the document map whose id matches the
hit; the map is an insertion-ordered association list, as a JS `Map`. -/
def addToDoc (r : FusedHit) (c : ChunkOut) : List DocumentResult → List DocumentResult
  | [] => []
  | d :: ds =>
      if d.document_id = r.document_id then updateDoc r c d :: ds
      else d :: addToDoc r c ds

/-- One step of `finalResults.forEach(result => ...)` (`part_000` lines
444-498). -/
def groupStep (debug : Bool) (m : List DocumentResult) (r : FusedHit) : List DocumentResult :=
  let m' := if m.any (fun d => d.document_id == r.document_id) then m else m ++ [freshDoc r]
  addToDoc r (mkChunkOut debug r) m'

/-- Group the final results by document (`part_000` lines 441-498). -/
def groupDocs (debug : Bool) (l : List FusedHit) : List DocumentResult :=
  l.foldl (groupStep debug) []

/-- The effective total used by the density calculation (`part_000` line
517): `docEntry.chunks[0]?.total_chunk_count || matchedChunks`, where a
missing or zero `total_chunk_count` is falsy and falls back to the
matched count. -/
def densityTotal (d : DocumentResult) : Nat :=
  match d.chunks.head? with
  | some c =>
      match c.total_chunk_count with
      | some t => if t = 0 then d.chunks.length else t
      | none => d.chunks.length
  | none => d.chunks.length

/-- The density value computed for one document entry when the
calculation is enabled (`part_000` lines 505-528). -/
def densityValue (d : DocumentResult) : ℚ :=
  let matched := d.chunks.length
  if matched = 0 then 0
  else if densityTotal d > 0 then (matched : ℚ) / (densityTotal d : ℚ)
  else 0

/-- The relevance-density calculation for one document entry (`part_000`
lines 500-534): when enabled, density is `matched / total`; when
disabled, every entry's density is set to `0` (lines 529-534). -/
def applyDensity (enabled : Bool) (d : DocumentResult) : DocumentResult :=
  { d with relevance_density := if enabled then densityValue d else 0 }

/-- Descending comparison on `best_rrf_score` used by the document-level
sort (`part_000` lines 537-538): JS stable sort with comparator
`(a, b) => b.best_rrf_score - a.best_rrf_score`; no secondary key. -/
def bestRrfGE (a b : DocumentResult) : Bool := decide (b.best_rrf_score ≤ a.best_rrf_score)

/-- `Array.from(documentMap.values()).sort(...)` (`part_000` lines
537-538). -/
def sortDocs (l : List DocumentResult) : List DocumentResult :=
  l.mergeSort bestRrfGE

/-- The `fallback_info` object of a response (`part_000` lines 564-572). -/
structure FallbackInfo where
  used : Bool
  precision_results : Option Nat
  fallback_results : Option Nat
  total_combined : Option Nat
  threshold : Option Nat
deriving Repr, DecidableEq

/-- The success response body (`part_000` lines 557-577), without the
timing fields. -/
structure RetrieveResponse where
  results : List DocumentResult
  total_documents : Nat
  total_chunks : Nat
  query : String
  fallback_info : FallbackInfo
deriving Repr, DecidableEq

/-- An error response: HTTP status plus the `error` field of the JSON
body. -/
structure ErrorResponse where
  status : Nat
  error : String
deriving Repr, DecidableEq

/-- The primary filtered results of a request: fusion of the two
retriever outputs followed by the post-filter (`part_000` lines 248-346). -/
def primaryFiltered (body : SearchRequest) (semanticResults : List SemanticRow)
    (keywordResults : List KeywordRow) : List FusedHit :=
  applyFilters body.filters (fuseResults false semanticResults keywordResults)

/-- The success path of the handler after both retrievals returned data
(`part_000` lines 248-577): fuse, filter, fallback, combine, group,
density, sort, and assemble the response body. -/
def buildResponse (body : SearchRequest) (semanticResults : List SemanticRow)
    (keywordResults : List KeywordRow) (backend : FallbackBackend) : RetrieveResponse :=
  let filteredResults := primaryFiltered body semanticResults keywordResults
  let fb := runFallback body backend filteredResults
  let finalResults := combineWithFallback filteredResults fb.1 fb.2
  let grouped := groupDocs (body.debug = some true) finalResults
  let enableDensityCalc := body.enable_density_calc ≠ some false
  let groupedResults := sortDocs (grouped.map (applyDensity enableDensityCalc))
  { results := groupedResults
    total_documents := groupedResults.length
    total_chunks := finalResults.length
    query := body.user_query
    fallback_info :=
      if fb.1 then
        { used := true
          precision_results := some filteredResults.length
          fallback_results := some fb.2.length
          total_combined := some finalResults.length
          threshold := some MIN_RESULTS_THRESHOLD }
      else
        { used := false
          precision_results := none
          fallback_results := none
          total_combined := none
          threshold := none } }

/-- The final fused hit list of a request: primary filtered results
unioned with the fallback results (`part_000` lines 429-438). -/
def finalFused (body : SearchRequest) (sem : List SemanticRow) (key : List KeywordRow)
    (backend : FallbackBackend) : List FusedHit :=
  combineWithFallback (primaryFiltered body sem key)
    (runFallback body backend (primaryFiltered body sem key)).1
    (runFallback body backend (primaryFiltered body sem key)).2

/-- The grouped document results of a request before the document-level
sort (`part_000` lines 441-534). -/
def preSortedDocs (body : SearchRequest) (sem : List SemanticRow) (key : List KeywordRow)
    (backend : FallbackBackend) : List DocumentResult :=
  (groupDocs (body.debug = some true) (finalFused body sem key backend)).map
    (applyDensity (body.enable_density_calc ≠ some false))

/-- The handler from the point where both search RPCs have settled
(`part_000` lines 219-246 then 248-577): an error from either retriever
produces an HTTP 500 error response naming the failed side; otherwise the
success response is built. -/
def runQueryPipeline (body : SearchRequest)
    (semanticOutcome : RpcOutcome SemanticRow) (keywordOutcome : RpcOutcome KeywordRow)
    (backend : FallbackBackend) : Except ErrorResponse RetrieveResponse :=
  match semanticOutcome with
  | .err => .error { status := 500, error := "Semantic search failed" }
  | .ok semanticResults =>
    match keywordOutcome with
    | .err => .error { status := 500, error := "Keyword search failed" }
    | .ok keywordResults =>
      .ok (buildResponse body semanticResults keywordResults backend)

/-! ## generate-rag-insights: cache key derivation and citation resolution -/

/-- The standard base64 alphabet used by JS `btoa`. -/
def base64Alphabet : List Char :=
  "ABCDEFGHIJKLMNOPQRSTUVWXYZabcdefghijklmnopqrstuvwxyz0123456789+/".toList

/-- The base64url alphabet (RFC 4648 §5), used by the specification's
`base64url` operation. -/
def base64urlAlphabet : List Char :=
  "ABCDEFGHIJKLMNOPQRSTUVWXYZabcdefghijklmnopqrstuvwxyz0123456789-_".toList

/-- The `n`-th character of an alphabet (`n < 64` in every use). -/
def b64Char (alphabet : List Char) (n : Nat) : Char := alphabet.getD n 'A'

/-- Base64 encoding of a byte sequence over a given alphabet, with `=`
padding when `pad` is true.  JS `btoa` is this with the standard alphabet
and padding. -/
def base64Go (alphabet : List Char) (pad : Bool) : List Nat → List Char
  | [] => []
  | [b1] =>
      [b64Char alphabet (b1 / 4), b64Char alphabet (b1 % 4 * 16)]
        ++ (if pad then ['=', '='] else [])
  | [b1, b2] =>
      [b64Char alphabet (b1 / 4), b64Char alphabet (b1 % 4 * 16 + b2 / 16),
       b64Char alphabet (b2 % 16 * 4)]
        ++ (if pad then ['='] else [])
  | b1 :: b2 :: b3 :: rest =>
      b64Char alphabet (b1 / 4) :: b64Char alphabet (b1 % 4 * 16 + b2 / 16)
        :: b64Char alphabet (b2 % 16 * 4 + b3 / 64) :: b64Char alphabet (b3 % 64)
        :: base64Go alphabet pad rest

/-- JS `btoa` on a byte sequence (the query's code units, each < 256;
`btoa` throws on larger code units, which is outside this model). -/
def btoa (bytes : List Nat) : List Char := base64Go base64Alphabet true bytes

/-- `base64url` of a byte sequence (unpadded, RFC 4648 §5), as named by
the specification's key-derivation formula. -/
def base64url (bytes : List Nat) : List Char := base64Go base64urlAlphabet false bytes

/-- A document as seen by `generate-rag-insights` (fields used by cache
keys and citation resolution). -/
structure InsightDoc where
  document_id : String
  document_title : String
deriving Repr, DecidableEq

/-- Ascending comparison on strings, modelling the JS default
`Array.prototype.sort()` (lexicographic comparison). -/
def strLE (a b : String) : Bool := decide (a ≤ b)

/-- `generateCacheKey` (`generate-rag-insights/index.ts` lines 67-72):
`docIds = documents.map(d => d.document_id).sort().join(',')`,
`queryHash = btoa(query).replace(/[^a-zA-Z0-9]/g, '')`, and the key is
the three parts joined with underscores. -/
def generateCacheKey (queryBytes : List Nat) (documents : List InsightDoc)
    (insightType : String) : String :=
  let docIds := String.intercalate "," ((documents.map (fun d => d.document_id)).mergeSort strLE)
  let queryHash := String.mk ((btoa queryBytes).filter (fun c => c.isAlphanum))
  insightType ++ "_" ++ queryHash ++ "_" ++ docIds

/-- The cache key as the specification §4.12 prescribes it:
`insight_type || ":" || base64url(query_utf8) || ":" ||
sort_and_join(document_ids, ",")`.  Stated from the spec's words, for
comparison with `generateCacheKey`. -/
def specCacheKey (queryBytes : List Nat) (documents : List InsightDoc)
    (insightType : String) : String :=
  insightType ++ ":" ++ String.mk (base64url queryBytes) ++ ":"
    ++ String.intercalate "," ((documents.map (fun d => d.document_id)).mergeSort strLE)

/-- The literal characters of the citation opener `[Source: `. -/
def sourceOpen : List Char := "[Source: ".toList

/-- Fueled scanner for the JS global regex `/\[Source: ([^\]]+)\]/g`
(`generate-rag-insights/index.ts` line 268): at each position, a match
needs the opener, at least one non-`]` character, and a closing `]`; on a
match the scan resumes after the `]`, otherwise at the next character.
The fuel (the remaining length at the start) dominates the number of
steps, since every step consumes at least one character. -/
def extractCitationsGo : Nat → List Char → List String
  | 0, _ => []
  | _, [] => []
  | fuel + 1, c :: rest =>
      if (c :: rest).take 9 = sourceOpen then
        let after := (c :: rest).drop 9
        match after.dropWhile (fun x => x ≠ ']'), after.takeWhile (fun x => x ≠ ']') with
        | ']' :: tail, t :: ts => String.mk (t :: ts) :: extractCitationsGo fuel tail
        | _, _ => extractCitationsGo fuel rest
      else extractCitationsGo fuel rest

/-- All `[Source: TITLE]` citation titles of an answer, leftmost first,
non-overlapping. -/
def extractCitations (answer : String) : List String :=
  extractCitationsGo answer.toList.length answer.toList

/-- One step of the citation-to-id loop (`generate-rag-insights/index.ts`
lines 271-277): find a document whose title equals the citation exactly,
and append its id if not already collected. -/
def citationStep (documents : List InsightDoc) (acc : List String) (title : String) : List String :=
  match documents.find? (fun d => d.document_title == title) with
  | some doc => if acc.contains doc.document_id then acc else acc ++ [doc.document_id]
  | none => acc

/-- `source_document_ids` of a parsed direct answer
(`generate-rag-insights/index.ts` lines 266-282): ids resolved from
citations, falling back to every document id of the request when no
citation resolved. -/
def resolveSourceDocumentIds (answer : String) (documents : List InsightDoc) : List String :=
  let ids := (extractCitations answer).foldl (citationStep documents) []
  if ids.isEmpty then documents.map (fun d => d.document_id) else ids

/-- The chunk ids of one grouped document. -/
def chunkIds (d : DocumentResult) : List String := d.chunks.map (fun c => c.id)

/-- The fallback tags (`*_fallback`), as emitted by the fallback fusion
pass (`part_000` lines 389, 402, 410). -/
def isFallbackTag (t : SearchType) : Prop :=
  t = .semantic_fallback ∨ t = .keyword_fallback ∨ t = .hybrid_fallback

/-! ## Example inputs used by witnesses and counterexamples -/

/-- Empty chunk metadata. -/
def mdEmpty : Metadata := { created_at := none, date := none }

/-- A semantic row with the fields the examples vary. -/
def exSemRow (i d : String) (s : ℚ) (t : Option Nat) : SemanticRow :=
  { id := i, document_id := d, document_title := d, document_type := "report",
    chunk_text := "text", chunk_order := 1, metadata := mdEmpty,
    similarity_score := s, total_chunk_count := t }

/-- A keyword row with the fields the examples vary. -/
def exKeyRow (i d : String) (s : ℚ) (t : Option Nat) : KeywordRow :=
  { id := i, document_id := d, document_title := d, document_type := "report",
    chunk_text := "text", chunk_order := 1, metadata := mdEmpty,
    relevance_score := s, total_chunk_count := t }

/-- A request body with every optional field absent. -/
def exBody : SearchRequest :=
  { user_query := "q", filters := none, limit := none, min_similarity := none,
    include_public_only := none, debug := none, enable_fallback := none,
    enable_density_calc := none }

/-- A request body with the fallback pass disabled. -/
def exBodyNoFallback : SearchRequest := { exBody with enable_fallback := some false }

/-- A fallback backend whose retrievals always error. -/
def deadBackend : FallbackBackend :=
  { sem := fun _ _ => .err, key := fun _ => .err, thrown := false }

/-- A fallback backend that returns one semantic hit for document `docB`. -/
def tieBackend : FallbackBackend :=
  { sem := fun _ _ => .ok [exSemRow "s1" "docB" (9/10) (some 1)],
    key := fun _ => .ok [], thrown := false }

/-- A one-hit keyword retrieval used by the fallback examples. -/
def exKeyOne : List KeywordRow := [exKeyRow "k1" "docA" (5/10) (some 1)]

/-- Semantic rows returned by the fallback backend in the union example:
one repeats the primary chunk id `k1`, one is new. -/
def unionRows : List SemanticRow :=
  [exSemRow "k1" "docA" (9/10) (some 1), exSemRow "s2" "docC" (8/10) (some 1)]

/-- A fallback backend returning `unionRows` on the semantic side. -/
def unionBackend : FallbackBackend :=
  { sem := fun _ _ => .ok unionRows, key := fun _ => .ok [], thrown := false }

/-- Dense side of the specification's hybrid-overlap example: `[A, B]`. -/
def exDense : List SemanticRow := [exSemRow "A" "d1" (9/10) none, exSemRow "B" "d1" (8/10) none]

/-- Lexical side of the specification's hybrid-overlap example: `[B, C]`. -/
def exLex : List KeywordRow := [exKeyRow "B" "d1" (5/10) none, exKeyRow "C" "d2" (4/10) none]

/-! ## Helper lemmas: fusion-map lookups, keys, and tags -/

theorem mkSemEntry_id (fb : Bool) (i : Nat) (r : SemanticRow) :
    (mkSemEntry fb i r).id = r.id := rfl

theorem mkKeyEntry_id (fb : Bool) (i : Nat) (r : KeywordRow) :
    (mkKeyEntry fb i r).id = r.id := rfl

theorem combineKeyword_id (fb : Bool) (i : Nat) (e : FusedHit) :
    (combineKeyword fb i e).id = e.id := rfl

theorem find?_map_id_preserving (f : FusedHit → FusedHit) (hf : ∀ x, (f x).id = x.id)
    (m : List FusedHit) (c : String) :
    (m.map f).find? (fun e => e.id == c) = (m.find? (fun e => e.id == c)).map f := by
  induction m with
  | nil => rfl
  | cons x xs ih =>
    by_cases h : x.id = c
    · simp [List.find?_cons, hf, h]
    · have h1 : (x.id == c) = false := by simp [h]
      have h2 : ((f x).id == c) = false := by simp [hf, h]
      simp [List.find?_cons, h1, h2, ih]

theorem mapSet_find_other (m : List FusedHit) (e : FusedHit) (c : String) (h : e.id ≠ c) :
    (mapSet m e).find? (fun x => x.id == c) = m.find? (fun x => x.id == c) := by
  unfold mapSet
  split
  · rw [find?_map_id_preserving]
    · cases hy : m.find? (fun x => x.id == c) with
      | none => rfl
      | some y =>
        have hyc : y.id = c := by simpa using List.find?_some hy
        have hne : (y.id == e.id) = false := by
          simp only [beq_eq_false_iff_ne, ne_eq]
          intro hc
          exact h (hc.symm.trans hyc)
        have hfy : (if y.id == e.id then e else y) = y := by
          rw [hne]
          simp
        simp [hfy]
        intro hc
        exact absurd (hc.symm.trans hyc) h
    · intro x
      split <;> simp_all
  · rw [List.find?_append]
    have : ([e].find? fun x => x.id == c) = none := by simp [h]
    simp [this]

theorem mapSet_find_self (m : List FusedHit) (e : FusedHit) (h : ∀ x ∈ m, x.id ≠ e.id) :
    (mapSet m e).find? (fun x => x.id == e.id) = some e := by
  unfold mapSet
  have hany : (m.any fun x => x.id == e.id) = false := by
    simp only [List.any_eq_false]
    intro x hx
    simp [h x hx]
  rw [if_neg (by simp [hany])]
  rw [List.find?_append]
  have hm : (m.find? fun x => x.id == e.id) = none := by
    rw [List.find?_eq_none]
    intro x hx
    simp [h x hx]
  simp [hm]

theorem applyKeyword_find_other (fb : Bool) (i : Nat) (m : List FusedHit)
    (r : KeywordRow) (c : String) (h : r.id ≠ c) :
    (applyKeyword fb i m r).find? (fun x => x.id == c) = m.find? (fun x => x.id == c) := by
  unfold applyKeyword
  split
  · rw [find?_map_id_preserving]
    · cases hy : m.find? (fun x => x.id == c) with
      | none => rfl
      | some y =>
        have hyc : y.id = c := by simpa using List.find?_some hy
        have hne : (y.id == r.id) = false := by
          simp only [beq_eq_false_iff_ne, ne_eq]
          intro hc
          exact h (hc.symm.trans hyc)
        have hfy : (if y.id == r.id then combineKeyword fb i y else y) = y := by
          rw [hne]
          simp
        simp [hfy]
        intro hc
        exact absurd (hc.symm.trans hyc) h
    · intro x
      split <;> simp [combineKeyword_id]
  · rw [List.find?_append]
    have : ([mkKeyEntry fb i r].find? fun x => x.id == c) = none := by
      simp [mkKeyEntry_id, h]
    simp [this]

theorem applyKeyword_find_self (fb : Bool) (i : Nat) (m : List FusedHit) (r : KeywordRow) :
    (applyKeyword fb i m r).find? (fun x => x.id == r.id) =
      match m.find? (fun x => x.id == r.id) with
      | some e => some (combineKeyword fb i e)
      | none => some (mkKeyEntry fb i r) := by
  unfold applyKeyword
  split
  · rename_i hany
    have : ∃ y, (m.find? fun x => x.id == r.id) = some y := by
      have h1 : (m.find? fun x => x.id == r.id).isSome := by
        rw [List.find?_isSome]
        simpa using hany
      exact Option.isSome_iff_exists.mp h1
    obtain ⟨y, hy⟩ := this
    have hyc : y.id = r.id := by simpa using List.find?_some hy
    rw [find?_map_id_preserving]
    · simp [hy, hyc]
    · intro x
      split <;> simp [combineKeyword_id]
  · rename_i hany
    have hany' : (m.any fun x => x.id == r.id) = false := by simpa using hany
    have hm : (m.find? fun x => x.id == r.id) = none := by
      rw [List.find?_eq_none]
      intro x hx
      have := List.any_eq_false.mp hany' x hx
      simpa using this
    rw [List.find?_append]
    simp [hm, mkKeyEntry_id]

theorem mapSet_mem_id (m : List FusedHit) (e x : FusedHit) (hx : x ∈ mapSet m e) :
    x.id = e.id ∨ ∃ y ∈ m, x.id = y.id := by
  unfold mapSet at hx
  split at hx
  · obtain ⟨y, hy, hxy⟩ := List.mem_map.mp hx
    by_cases hc : y.id = e.id
    · subst hxy
      simp [hc]
    · have : (y.id == e.id) = false := by simpa using hc
      rw [this] at hxy
      simp at hxy
      subst hxy
      exact Or.inr ⟨y, hy, rfl⟩
  · rcases List.mem_append.mp hx with h1 | h1
    · exact Or.inr ⟨x, h1, rfl⟩
    · simp at h1
      subst h1
      exact Or.inl rfl

theorem semanticPassGo_find_absent (fb : Bool) :
    ∀ (rows : List SemanticRow) (i0 : Nat) (m : List FusedHit) (c : String),
      (∀ r ∈ rows, r.id ≠ c) →
      (semanticPassGo fb i0 m rows).find? (fun e => e.id == c) = m.find? (fun e => e.id == c)
  | [], _, _, _, _ => rfl
  | r :: rest, i0, m, c, h => by
    rw [semanticPassGo]
    rw [semanticPassGo_find_absent fb rest (i0 + 1) _ c (fun r' hr' => h r' (by simp [hr']))]
    exact mapSet_find_other m _ c (h r (by simp))

theorem semanticPassGo_find_mem (fb : Bool) :
    ∀ (rows : List SemanticRow) (i0 : Nat) (m : List FusedHit) (j : Nat) (r : SemanticRow),
      rows[j]? = some r →
      (rows.map (fun x => x.id)).Nodup →
      (∀ r' ∈ rows, ∀ x ∈ m, x.id ≠ r'.id) →
      (semanticPassGo fb i0 m rows).find? (fun e => e.id == r.id) =
        some (mkSemEntry fb (i0 + j) r)
  | [], _, _, j, r, hj, _, _ => by simp at hj
  | r0 :: rest, i0, m, j, r, hj, hnd, hfresh => by
    rw [semanticPassGo]
    have hpair : (∀ x ∈ rest, ¬ x.id = r0.id) ∧ (rest.map (fun x => x.id)).Nodup := by
      simpa using hnd
    match j with
    | 0 =>
      simp at hj
      subst hj
      have hrest : ∀ r' ∈ rest, r'.id ≠ r0.id := fun r' hr' => hpair.1 r' hr'
      rw [semanticPassGo_find_absent fb rest (i0 + 1) _ r0.id hrest]
      have := mapSet_find_self m (mkSemEntry fb i0 r0)
        (fun x hx => hfresh r0 (by simp) x hx)
      simpa using this
    | k + 1 =>
      simp only [List.getElem?_cons_succ] at hj
      have hfresh' : ∀ r' ∈ rest, ∀ x ∈ mapSet m (mkSemEntry fb i0 r0), x.id ≠ r'.id := by
        intro r' hr' x hx
        rcases mapSet_mem_id m _ x hx with h1 | ⟨y, hy, h1⟩
        · rw [h1, mkSemEntry_id]
          intro hc
          exact hpair.1 r' hr' hc.symm
        · rw [h1]
          exact hfresh r' (by simp [hr']) y hy
      have hrec := semanticPassGo_find_mem fb rest (i0 + 1) (mapSet m (mkSemEntry fb i0 r0)) k r
        hj hpair.2 hfresh'
      have harith : i0 + 1 + k = i0 + (k + 1) := by omega
      rw [harith] at hrec
      exact hrec

theorem keywordPassGo_find_absent (fb : Bool) :
    ∀ (rows : List KeywordRow) (j0 : Nat) (m : List FusedHit) (c : String),
      (∀ r ∈ rows, r.id ≠ c) →
      (keywordPassGo fb j0 m rows).find? (fun e => e.id == c) = m.find? (fun e => e.id == c)
  | [], _, _, _, _ => rfl
  | r :: rest, j0, m, c, h => by
    rw [keywordPassGo]
    rw [keywordPassGo_find_absent fb rest (j0 + 1) _ c (fun r' hr' => h r' (by simp [hr']))]
    exact applyKeyword_find_other fb j0 m r c (h r (by simp))

theorem keywordPassGo_find_mem (fb : Bool) :
    ∀ (rows : List KeywordRow) (j0 : Nat) (m : List FusedHit) (j : Nat) (r : KeywordRow),
      rows[j]? = some r →
      (rows.map (fun x => x.id)).Nodup →
      (keywordPassGo fb j0 m rows).find? (fun e => e.id == r.id) =
        (match m.find? (fun e => e.id == r.id) with
         | some e => some (combineKeyword fb (j0 + j) e)
         | none => some (mkKeyEntry fb (j0 + j) r))
  | [], _, _, j, r, hj, _ => by simp at hj
  | r0 :: rest, j0, m, j, r, hj, hnd => by
    rw [keywordPassGo]
    have hpair : (∀ x ∈ rest, ¬ x.id = r0.id) ∧ (rest.map (fun x => x.id)).Nodup := by
      simpa using hnd
    match j with
    | 0 =>
      simp at hj
      subst hj
      have hrest : ∀ r' ∈ rest, r'.id ≠ r0.id := fun r' hr' => hpair.1 r' hr'
      rw [keywordPassGo_find_absent fb rest (j0 + 1) _ r0.id hrest]
      have := applyKeyword_find_self fb j0 m r0
      simpa using this
    | k + 1 =>
      simp only [List.getElem?_cons_succ] at hj
      have hr0ne : r0.id ≠ r.id := by
        intro hc
        exact hpair.1 r (List.getElem?_mem hj) (by rw [hc])
      have hrec := keywordPassGo_find_mem fb rest (j0 + 1) (applyKeyword fb j0 m r0) k r hj hpair.2
      rw [hrec]
      rw [applyKeyword_find_other fb j0 m r0 r.id hr0ne]
      have harith : j0 + 1 + k = j0 + (k + 1) := by omega
      rw [harith]

theorem mapSet_ids_nodup (m : List FusedHit) (e : FusedHit)
    (h : (m.map (fun x => x.id)).Nodup) : ((mapSet m e).map (fun x => x.id)).Nodup := by
  unfold mapSet
  split
  · have : ((m.map (fun x => if x.id == e.id then e else x)).map (fun x => x.id))
        = m.map (fun x => x.id) := by
      rw [List.map_map]
      apply List.map_congr_left
      intro x _
      by_cases hc : x.id = e.id
      · simp [hc]
      · simp [hc]
    rw [this]
    exact h
  · rename_i hany
    have hall : ∀ x ∈ m, ¬ x.id = e.id := by simpa using hany
    have hnotin : e.id ∉ m.map (fun x => x.id) := by
      intro hmem
      obtain ⟨y, hy, hid⟩ := List.mem_map.mp hmem
      exact hall y hy hid
    simp only [List.map_append, List.map_cons, List.map_nil]
    rw [List.nodup_append]
    exact ⟨h, List.nodup_singleton _, by
      intro a ha hb
      simp at hb
      rw [hb] at ha
      exact hnotin ha⟩

theorem applyKeyword_ids_nodup (fb : Bool) (i : Nat) (m : List FusedHit) (r : KeywordRow)
    (h : (m.map (fun x => x.id)).Nodup) :
    ((applyKeyword fb i m r).map (fun x => x.id)).Nodup := by
  unfold applyKeyword
  split
  · have : ((m.map (fun x => if x.id == r.id then combineKeyword fb i x else x)).map
        (fun x => x.id)) = m.map (fun x => x.id) := by
      rw [List.map_map]
      apply List.map_congr_left
      intro x _
      by_cases hc : x.id = r.id
      · simp [hc, combineKeyword_id]
      · simp [hc]
    rw [this]
    exact h
  · rename_i hany
    have hall : ∀ x ∈ m, ¬ x.id = r.id := by simpa using hany
    have hnotin : r.id ∉ m.map (fun x => x.id) := by
      intro hmem
      obtain ⟨y, hy, hid⟩ := List.mem_map.mp hmem
      exact hall y hy hid
    simp only [List.map_append, List.map_cons, List.map_nil]
    rw [List.nodup_append]
    refine ⟨h, List.nodup_singleton _, ?_⟩
    intro a ha hb
    simp [mkKeyEntry_id] at hb
    rw [hb] at ha
    exact hnotin ha

theorem semanticPassGo_ids_nodup (fb : Bool) :
    ∀ (rows : List SemanticRow) (i0 : Nat) (m : List FusedHit),
      (m.map (fun x => x.id)).Nodup →
      ((semanticPassGo fb i0 m rows).map (fun x => x.id)).Nodup
  | [], _, _, h => h
  | r :: rest, i0, m, h => by
    rw [semanticPassGo]
    exact semanticPassGo_ids_nodup fb rest (i0 + 1) _ (mapSet_ids_nodup m _ h)

theorem keywordPassGo_ids_nodup (fb : Bool) :
    ∀ (rows : List KeywordRow) (j0 : Nat) (m : List FusedHit),
      (m.map (fun x => x.id)).Nodup →
      ((keywordPassGo fb j0 m rows).map (fun x => x.id)).Nodup
  | [], _, _, h => h
  | r :: rest, j0, m, h => by
    rw [keywordPassGo]
    exact keywordPassGo_ids_nodup fb rest (j0 + 1) _ (applyKeyword_ids_nodup fb j0 m r h)

theorem fuseResults_ids_nodup (fb : Bool) (sem : List SemanticRow) (key : List KeywordRow) :
    ((fuseResults fb sem key).map (fun x => x.id)).Nodup := by
  unfold fuseResults
  have hperm := List.mergeSort_perm
    (keywordPassGo fb 0 (semanticPassGo fb 0 [] sem) key) rrfGE
  have h1 := keywordPassGo_ids_nodup fb key 0 (semanticPassGo fb 0 [] sem)
    (semanticPassGo_ids_nodup fb sem 0 [] (by simp))
  exact ((hperm.map (fun x => x.id)).nodup_iff).mpr h1

theorem rrfGE_trans : ∀ (a b c : FusedHit), rrfGE a b → rrfGE b c → rrfGE a c := by
  intro a b c h1 h2
  simp only [rrfGE, decide_eq_true_eq] at h1 h2 ⊢
  exact le_trans h2 h1

theorem rrfGE_total : ∀ (a b : FusedHit), rrfGE a b || rrfGE b a := by
  intro a b
  simp only [rrfGE, Bool.or_eq_true, decide_eq_true_eq]
  exact (le_total b.rrf_score a.rrf_score).imp id id

theorem fuseResults_sorted (fb : Bool) (sem : List SemanticRow) (key : List KeywordRow) :
    (fuseResults fb sem key).Pairwise (fun a b => b.rrf_score ≤ a.rrf_score) := by
  unfold fuseResults
  have h := List.sorted_mergeSort rrfGE_trans rrfGE_total
    (keywordPassGo fb 0 (semanticPassGo fb 0 [] sem) key)
  exact h.imp (fun hab => by simpa [rrfGE] using hab)

theorem bestRrfGE_trans : ∀ (a b c : DocumentResult), bestRrfGE a b → bestRrfGE b c → bestRrfGE a c := by
  intro a b c h1 h2
  simp only [bestRrfGE, decide_eq_true_eq] at h1 h2 ⊢
  exact le_trans h2 h1

theorem bestRrfGE_total : ∀ (a b : DocumentResult), bestRrfGE a b || bestRrfGE b a := by
  intro a b
  simp only [bestRrfGE, Bool.or_eq_true, decide_eq_true_eq]
  exact (le_total b.best_rrf_score a.best_rrf_score).imp id id

theorem sortDocs_sorted (l : List DocumentResult) :
    (sortDocs l).Pairwise (fun a b => b.best_rrf_score ≤ a.best_rrf_score) := by
  unfold sortDocs
  have h := List.sorted_mergeSort bestRrfGE_trans bestRrfGE_total l
  exact h.imp (fun hab => by simpa [bestRrfGE] using hab)

/-- Membership in `mapSet`: the new entry or an original one. -/
theorem mapSet_mem (m : List FusedHit) (e x : FusedHit) (hx : x ∈ mapSet m e) :
    x = e ∨ x ∈ m := by
  unfold mapSet at hx
  split at hx
  · obtain ⟨y, hy, hxy⟩ := List.mem_map.mp hx
    by_cases hc : (y.id == e.id) = true
    · rw [if_pos hc] at hxy
      exact Or.inl hxy.symm
    · rw [if_neg hc] at hxy
      exact Or.inr (hxy ▸ hy)
  · rcases List.mem_append.mp hx with h1 | h1
    · exact Or.inr h1
    · simp at h1
      exact Or.inl h1

/-- Membership in `applyKeyword`: the appended keyword entry, an untouched
original, or a merged original. -/
theorem applyKeyword_mem (fb : Bool) (i : Nat) (m : List FusedHit) (r : KeywordRow)
    (x : FusedHit) (hx : x ∈ applyKeyword fb i m r) :
    x = mkKeyEntry fb i r ∨ x ∈ m ∨ ∃ y ∈ m, x = combineKeyword fb i y := by
  unfold applyKeyword at hx
  split at hx
  · obtain ⟨y, hy, hxy⟩ := List.mem_map.mp hx
    by_cases hc : (y.id == r.id) = true
    · rw [if_pos hc] at hxy
      exact Or.inr (Or.inr ⟨y, hy, hxy.symm⟩)
    · rw [if_neg hc] at hxy
      exact Or.inr (Or.inl (hxy ▸ hy))
  · rcases List.mem_append.mp hx with h1 | h1
    · exact Or.inr (Or.inl h1)
    · simp at h1
      exact Or.inl h1

theorem semanticPassGo_tags :
    ∀ (rows : List SemanticRow) (i0 : Nat) (m : List FusedHit),
      (∀ x ∈ m, isFallbackTag x.search_type) →
      ∀ x ∈ semanticPassGo true i0 m rows, isFallbackTag x.search_type
  | [], _, _, h => h
  | r :: rest, i0, m, h => by
    rw [semanticPassGo]
    apply semanticPassGo_tags rest (i0 + 1)
    intro x hx
    rcases mapSet_mem m _ x hx with h1 | h1
    · rw [h1]
      exact Or.inl rfl
    · exact h x h1

theorem keywordPassGo_tags :
    ∀ (rows : List KeywordRow) (j0 : Nat) (m : List FusedHit),
      (∀ x ∈ m, isFallbackTag x.search_type) →
      ∀ x ∈ keywordPassGo true j0 m rows, isFallbackTag x.search_type
  | [], _, _, h => h
  | r :: rest, j0, m, h => by
    rw [keywordPassGo]
    apply keywordPassGo_tags rest (j0 + 1)
    intro x hx
    rcases applyKeyword_mem true j0 m r x hx with h1 | h1 | ⟨y, _, h1⟩
    · rw [h1]
      exact Or.inr (Or.inl rfl)
    · exact h x h1
    · rw [h1]
      exact Or.inr (Or.inr rfl)

theorem fuseResults_fallback_tags (sem : List SemanticRow) (key : List KeywordRow) :
    ∀ e ∈ fuseResults true sem key, isFallbackTag e.search_type := by
  intro e he
  unfold fuseResults at he
  rw [List.mem_mergeSort] at he
  exact keywordPassGo_tags key 0 _
    (semanticPassGo_tags sem 0 [] (by simp)) e he

/-! ## Helper lemmas: filters, fallback union, grouping -/

theorem filterByDocId_sublist (f : Filters) (l : List FusedHit) :
    List.Sublist (filterByDocId f l) l := by
  unfold filterByDocId
  split
  · split
    · exact List.filter_sublist l
    · exact List.Sublist.refl l
  · exact List.Sublist.refl l

theorem filterByDocType_sublist (f : Filters) (l : List FusedHit) :
    List.Sublist (filterByDocType f l) l := by
  unfold filterByDocType
  split
  · split
    · exact List.filter_sublist l
    · exact List.Sublist.refl l
  · exact List.Sublist.refl l

theorem filterByDate_sublist (f : Filters) (l : List FusedHit) :
    List.Sublist (filterByDate f l) l := by
  unfold filterByDate
  cases f.dateRange with
  | none => exact List.Sublist.refl l
  | some dr =>
    dsimp only
    cases dr.start with
    | none =>
      cases dr.stop with
      | none => exact List.Sublist.refl l
      | some e => exact List.filter_sublist l
    | some st =>
      cases dr.stop with
      | none => exact List.filter_sublist l
      | some e => exact List.Sublist.trans (List.filter_sublist _) (List.filter_sublist l)

theorem applyFilters_sublist (filters : Option Filters) (l : List FusedHit) :
    List.Sublist (applyFilters filters l) l := by
  unfold applyFilters
  split
  · exact List.Sublist.refl l
  · exact ((filterByDate_sublist _ _).trans (filterByDocType_sublist _ _)).trans
      (filterByDocId_sublist _ _)

theorem primaryFiltered_ids_nodup (body : SearchRequest) (sem : List SemanticRow)
    (key : List KeywordRow) :
    ((primaryFiltered body sem key).map (fun x => x.id)).Nodup := by
  have hs := (applyFilters_sublist body.filters (fuseResults false sem key)).map
    (fun x => x.id)
  exact (fuseResults_ids_nodup false sem key).sublist hs

theorem combineWithFallback_ids_nodup (filtered : List FusedHit) (used : Bool)
    (fbr : List FusedHit) (h1 : (filtered.map (fun x => x.id)).Nodup)
    (h2 : (fbr.map (fun x => x.id)).Nodup) :
    ((combineWithFallback filtered used fbr).map (fun x => x.id)).Nodup := by
  unfold combineWithFallback
  split
  · rw [List.map_append, List.nodup_append]
    refine ⟨h1, (h2.sublist ((List.filter_sublist fbr).map (fun x => x.id))), ?_⟩
    intro a ha hb
    obtain ⟨y, hy, hid⟩ := List.mem_map.mp hb
    have hyr := List.mem_filter.mp hy
    have : ¬ (filtered.map (fun r => r.id)).contains y.id := by
      simpa using hyr.2
    rw [← hid] at ha
    exact this (by simpa [List.contains, List.elem_eq_mem] using ha)
  · exact h1

theorem mkChunkOut_id (debug : Bool) (r : FusedHit) : (mkChunkOut debug r).id = r.id := rfl

theorem updateDoc_chunkIds (r : FusedHit) (c : ChunkOut) (d : DocumentResult) :
    chunkIds (updateDoc r c d) = chunkIds d ++ [c.id] := by
  simp [updateDoc, chunkIds]

theorem freshDoc_chunkIds (r : FusedHit) : chunkIds (freshDoc r) = [] := rfl

theorem addToDoc_flatten_perm (r : FusedHit) (c : ChunkOut) :
    ∀ (m : List DocumentResult), (∃ d ∈ m, d.document_id = r.document_id) →
      List.Perm ((addToDoc r c m).map chunkIds).flatten ((m.map chunkIds).flatten ++ [c.id])
  | [], h => by simp at h
  | d :: ds, h => by
    rw [addToDoc]
    by_cases hd : d.document_id = r.document_id
    · rw [if_pos hd]
      simp only [List.map_cons, List.flatten_cons, updateDoc_chunkIds]
      rw [List.append_assoc, List.append_assoc]
      exact List.Perm.append_left _ List.perm_append_comm
    · rw [if_neg hd]
      simp only [List.map_cons, List.flatten_cons]
      have hex : ∃ d' ∈ ds, d'.document_id = r.document_id := by
        rcases h with ⟨d', hd', he⟩
        rcases List.mem_cons.mp hd' with h1 | h1
        · exact absurd (h1 ▸ he) hd
        · exact ⟨d', h1, he⟩
      have := addToDoc_flatten_perm r c ds hex
      rw [List.append_assoc]
      exact List.Perm.append_left _ this

theorem groupStep_flatten_perm (debug : Bool) (m : List DocumentResult) (r : FusedHit) :
    List.Perm ((groupStep debug m r).map chunkIds).flatten
      ((m.map chunkIds).flatten ++ [r.id]) := by
  unfold groupStep
  by_cases hany : (m.any fun d => d.document_id == r.document_id) = true
  · rw [if_pos hany]
    have hex : ∃ d ∈ m, d.document_id = r.document_id := by
      simpa using hany
    have := addToDoc_flatten_perm r (mkChunkOut debug r) m hex
    rwa [mkChunkOut_id] at this
  · rw [if_neg hany]
    have hex : ∃ d ∈ m ++ [freshDoc r], d.document_id = r.document_id :=
      ⟨freshDoc r, by simp, rfl⟩
    have h1 := addToDoc_flatten_perm r (mkChunkOut debug r) (m ++ [freshDoc r]) hex
    rw [mkChunkOut_id] at h1
    have h2 : ((m ++ [freshDoc r]).map chunkIds).flatten = (m.map chunkIds).flatten := by
      simp [freshDoc_chunkIds]
    rwa [h2] at h1

theorem foldl_groupStep_flatten_perm (debug : Bool) :
    ∀ (l : List FusedHit) (acc : List DocumentResult),
      List.Perm ((l.foldl (groupStep debug) acc).map chunkIds).flatten
        ((acc.map chunkIds).flatten ++ l.map (fun r => r.id))
  | [], acc => by simp
  | r :: rest, acc => by
    simp only [List.foldl_cons, List.map_cons]
    have h1 := foldl_groupStep_flatten_perm debug rest (groupStep debug acc r)
    have h2 := (groupStep_flatten_perm debug acc r).append_right
      (rest.map (fun r => r.id))
    have h3 : ((acc.map chunkIds).flatten ++ [r.id]) ++ rest.map (fun r => r.id)
        = (acc.map chunkIds).flatten ++ (r.id :: rest.map (fun r => r.id)) := by
      simp
    exact (h1.trans (h3 ▸ h2))

theorem groupDocs_flatten_perm (debug : Bool) (l : List FusedHit) :
    List.Perm ((groupDocs debug l).map chunkIds).flatten (l.map (fun r => r.id)) := by
  have := foldl_groupStep_flatten_perm debug l []
  simpa [groupDocs] using this

theorem applyDensity_chunks (enabled : Bool) (d : DocumentResult) :
    (applyDensity enabled d).chunks = d.chunks := rfl

/-! ## Claim theorems -/

/-- C1 (counterexample): at a concrete request where exactly the semantic
retriever fails and the keyword retriever returns a hit, the handler does
NOT succeed with the keyword side: it returns an HTTP 500 error response,
so no partial result and no `partial = true` metric exist. -/
theorem single_retriever_failure_not_partial_cex :
    runQueryPipeline exBody .err (.ok [exKeyRow "c1" "d1" (5/10) none]) deadBackend
      = .error { status := 500, error := "Semantic search failed" }
  ∧ ¬ ∃ resp, runQueryPipeline exBody .err (.ok [exKeyRow "c1" "d1" (5/10) none]) deadBackend
      = .ok resp := by
  refine ⟨rfl, ?_⟩
  rintro ⟨resp, h⟩
  simp [runQueryPipeline] at h

/-- C1 (amended): when either retriever reports an error the whole
request fails with HTTP 500 naming the failed side (`part_000` lines
219-246); there is no degradation to the surviving side and no partial
flag. -/
theorem single_retriever_failure_returns_500 (body : SearchRequest) (backend : FallbackBackend) :
    (∀ keyOutcome : RpcOutcome KeywordRow,
      runQueryPipeline body .err keyOutcome backend
        = .error { status := 500, error := "Semantic search failed" })
  ∧ (∀ semRows : List SemanticRow,
      runQueryPipeline body (.ok semRows) .err backend
        = .error { status := 500, error := "Keyword search failed" }) :=
  ⟨fun _ => rfl, fun _ => rfl⟩

/-- C9: a request that supplies `limit = 0` or `min_similarity = 0` is
processed exactly as if the field were omitted: the JS `||` coercion
(`part_000` lines 158-159) substitutes the defaults 50 and 0.6, so a
caller can never obtain a zero limit or a zero similarity floor. -/
theorem zero_limit_and_threshold_coerced_to_defaults (body : SearchRequest)
    (semanticOutcome : RpcOutcome SemanticRow) (keywordOutcome : RpcOutcome KeywordRow)
    (backend : FallbackBackend) :
    runQueryPipeline { body with limit := some 0 } semanticOutcome keywordOutcome backend
      = runQueryPipeline { body with limit := none } semanticOutcome keywordOutcome backend
  ∧ runQueryPipeline { body with min_similarity := some 0 } semanticOutcome keywordOutcome backend
      = runQueryPipeline { body with min_similarity := none } semanticOutcome keywordOutcome backend
  ∧ resolvedLimit { body with limit := some 0 } = DEFAULT_MAX_CHUNKS
  ∧ resolvedMinSimilarity { body with min_similarity := some 0 } = DEFAULT_SIMILARITY_THRESHOLD
  ∧ DEFAULT_MAX_CHUNKS = 50
  ∧ DEFAULT_SIMILARITY_THRESHOLD = 6/10 := by
  refine ⟨?_, ?_, ?_, ?_, rfl, rfl⟩
  · cases semanticOutcome <;> cases keywordOutcome <;> rfl
  · cases semanticOutcome <;> cases keywordOutcome <;>
      simp [runQueryPipeline, buildResponse, runFallback, primaryFiltered,
        resolvedMinSimilarity, resolvedLimit, jsOrRat, jsOrNat]
  · rfl
  · simp [resolvedMinSimilarity, jsOrRat]

/-- C10: the cache key is not injective in the query: the two distinct
one-character queries with code units 248 (`ø`) and 252 (`ü`) have
base64 encodings `+A==` and `/A==`, which the non-alphanumeric strip
collapses to the same `A`, so both queries derive the same cache key. -/
theorem cache_key_query_collision :
    generateCacheKey [248] [⟨"d1", "T"⟩] "direct_answer"
      = generateCacheKey [252] [⟨"d1", "T"⟩] "direct_answer"
  ∧ ([248] : List Nat) ≠ [252] := by
  constructor
  · rfl
  · decide

/-- C7 (counterexample): for insight type `direct_answer`, query bytes
`"abc"` (base64 `YWJj`, no padding, identical under both alphabets) and
document id `d1`, the code derives `direct_answer_YWJj_d1` — underscores,
not the `insight_type:base64url(query):ids` shape the claim states. -/
theorem cache_key_format_cex :
    generateCacheKey [97, 98, 99] [⟨"d1", "T"⟩] "direct_answer" = "direct_answer_YWJj_d1"
  ∧ specCacheKey [97, 98, 99] [⟨"d1", "T"⟩] "direct_answer" = "direct_answer:YWJj:d1"
  ∧ generateCacheKey [97, 98, 99] [⟨"d1", "T"⟩] "direct_answer"
      ≠ specCacheKey [97, 98, 99] [⟨"d1", "T"⟩] "direct_answer" := by
  refine ⟨?_, ?_, ?_⟩
  · simp [generateCacheKey, List.mergeSort_singleton]
    rfl
  · simp [specCacheKey, List.mergeSort_singleton]
    rfl
  · simp [generateCacheKey, specCacheKey, List.mergeSort_singleton]
    decide

/-- C7 (amended): the derived key is
`insight_type ++ "_" ++ strip(btoa(query)) ++ "_" ++ sorted ids joined
with ","`, where `strip` removes every non-alphanumeric character; the id
component is a sorted permutation of the request's document ids and the
query component contains only alphanumeric characters. -/
theorem cache_key_underscore_format (queryBytes : List Nat) (documents : List InsightDoc)
    (insightType : String) :
    generateCacheKey queryBytes documents insightType
      = insightType ++ "_" ++ String.mk ((btoa queryBytes).filter (fun c => c.isAlphanum))
          ++ "_" ++ String.intercalate ","
              ((documents.map (fun d => d.document_id)).mergeSort strLE)
  ∧ List.Perm ((documents.map (fun d => d.document_id)).mergeSort strLE)
      (documents.map (fun d => d.document_id))
  ∧ ((documents.map (fun d => d.document_id)).mergeSort strLE).Pairwise
      (fun a b => a ≤ b)
  ∧ ∀ c ∈ (btoa queryBytes).filter (fun c => c.isAlphanum), c.isAlphanum := by
  refine ⟨rfl, List.mergeSort_perm _ _, ?_, ?_⟩
  · have htrans : ∀ (a b c : String), strLE a b → strLE b c → strLE a c := by
      intro a b c h1 h2
      simp only [strLE, decide_eq_true_eq] at h1 h2 ⊢
      exact le_trans h1 h2
    have htotal : ∀ (a b : String), strLE a b || strLE b a := by
      intro a b
      simp only [strLE, Bool.or_eq_true, decide_eq_true_eq]
      exact (le_total a b).imp id id
    have h := List.sorted_mergeSort htrans htotal (documents.map (fun d => d.document_id))
    exact h.imp (fun hab => by simpa [strLE] using hab)
  · intro c hc
    exact (List.mem_filter.mp hc).2

theorem citationStep_mem (documents : List InsightDoc) (acc : List String) (title : String)
    (x : String) (hx : x ∈ citationStep documents acc title) :
    x ∈ acc ∨ x ∈ documents.map (fun d => d.document_id) := by
  unfold citationStep at hx
  split at hx
  · rename_i doc hdoc
    split at hx
    · exact Or.inl hx
    · rcases List.mem_append.mp hx with h1 | h1
      · exact Or.inl h1
      · simp at h1
        subst h1
        exact Or.inr (List.mem_map.mpr ⟨doc, List.mem_of_find?_eq_some hdoc, rfl⟩)
  · exact Or.inl hx

theorem citation_foldl_mem (documents : List InsightDoc) :
    ∀ (cits : List String) (acc : List String),
      (∀ x ∈ acc, x ∈ documents.map (fun d => d.document_id)) →
      ∀ x ∈ cits.foldl (citationStep documents) acc,
        x ∈ documents.map (fun d => d.document_id)
  | [], acc, hacc => hacc
  | t :: rest, acc, hacc => by
    rw [List.foldl_cons]
    apply citation_foldl_mem documents rest
    intro x hx
    rcases citationStep_mem documents acc t x hx with h1 | h1
    · exact hacc x h1
    · exact h1

theorem citationStep_nodup (documents : List InsightDoc) (acc : List String) (title : String)
    (h : acc.Nodup) : (citationStep documents acc title).Nodup := by
  unfold citationStep
  split
  · split
    · exact h
    · rename_i hnotin
      rw [List.nodup_append]
      refine ⟨h, List.nodup_singleton _, ?_⟩
      intro a ha hb
      simp at hb
      subst hb
      exact hnotin (by simpa [List.contains, List.elem_eq_mem] using ha)
  · exact h

theorem citation_foldl_nodup (documents : List InsightDoc) :
    ∀ (cits : List String) (acc : List String), acc.Nodup →
      (cits.foldl (citationStep documents) acc).Nodup
  | [], _, h => h
  | t :: rest, acc, h => by
    rw [List.foldl_cons]
    exact citation_foldl_nodup documents rest _ (citationStep_nodup documents acc t h)

/-- C8 (counterexample): a request whose `documents` array repeats the
same `document_id` and an answer with no citations takes the fallback
path, which copies every document id verbatim — producing a duplicated
`source_document_ids`, contrary to the claim's unconditional "no
duplicates". -/
theorem source_ids_duplicates_cex :
    resolveSourceDocumentIds "no citations here"
        [⟨"doc-1", "T"⟩, ⟨"doc-1", "T2"⟩] = ["doc-1", "doc-1"]
  ∧ ¬ (["doc-1", "doc-1"] : List String).Nodup := by
  constructor
  · rfl
  · decide

/-- C8 (amended): every emitted `source_document_ids` entry is the id of
a document in the request, and the list has no duplicates provided the
request's document ids are pairwise distinct (the citation path never
introduces duplicates; the no-citation fallback copies the request's ids
verbatim).  The claim's concrete example holds: an answer citing
`Intro to ML` and `Unknown Doc` against documents doc-1/doc-2 resolves to
`["doc-1"]`. -/
theorem source_document_ids_sound (answer : String) (documents : List InsightDoc)
    (hnd : (documents.map (fun d => d.document_id)).Nodup) :
    (∀ x ∈ resolveSourceDocumentIds answer documents,
        x ∈ documents.map (fun d => d.document_id))
  ∧ (resolveSourceDocumentIds answer documents).Nodup
  ∧ resolveSourceDocumentIds
        "X is true [Source: Intro to ML]. Y follows [Source: Unknown Doc]."
        [⟨"doc-1", "Intro to ML"⟩, ⟨"doc-2", "Advanced RAG"⟩] = ["doc-1"] := by
  refine ⟨?_, ?_, rfl⟩
  · intro x hx
    unfold resolveSourceDocumentIds at hx
    dsimp only at hx
    split at hx
    · exact hx
    · exact citation_foldl_mem documents _ [] (by simp) x hx
  · unfold resolveSourceDocumentIds
    dsimp only
    split
    · exact hnd
    · exact citation_foldl_nodup documents _ [] List.nodup_nil

/-- Witness for the amended C8 theorem at the claim's concrete example. -/
theorem source_document_ids_sound_witness :
    (∀ x ∈ resolveSourceDocumentIds
        "X is true [Source: Intro to ML]. Y follows [Source: Unknown Doc]."
        [⟨"doc-1", "Intro to ML"⟩, ⟨"doc-2", "Advanced RAG"⟩],
      x ∈ ([⟨"doc-1", "Intro to ML"⟩, ⟨"doc-2", "Advanced RAG"⟩] : List InsightDoc).map
        (fun d => d.document_id))
  ∧ (resolveSourceDocumentIds
        "X is true [Source: Intro to ML]. Y follows [Source: Unknown Doc]."
        [⟨"doc-1", "Intro to ML"⟩, ⟨"doc-2", "Advanced RAG"⟩]).Nodup := by
  have h := source_document_ids_sound
    "X is true [Source: Intro to ML]. Y follows [Source: Unknown Doc]."
    [⟨"doc-1", "Intro to ML"⟩, ⟨"doc-2", "Advanced RAG"⟩] (by decide)
  exact ⟨h.1, h.2.1⟩

/-- C2: RRF fusion.  With both retriever outputs duplicate-free, a hit at
0-based rank `i` only in the semantic (dense) list fuses to rrf score
`1/(K+i)` with tag `semantic`; a hit only in the keyword (lexical) list
fuses to `1/(K+j)` with tag `keyword`; a hit in both lists fuses to the
sum of its two contributions with tag `hybrid`; the fused list is sorted
by descending `rrf_score`; `K = DEFAULT_RRF_K_VALUE = 10`.  On the
specification's example (dense `[A, B]`, lexical `[B, C]`) the scores are
`rrf(A) = 1/10`, `rrf(B) = 1/11 + 1/10`, `rrf(C) = 1/11` and the fused
order is `[B, A, C]`. -/
theorem rrf_fusion_spec (ds : List SemanticRow) (ks : List KeywordRow)
    (hd : (ds.map (fun x => x.id)).Nodup) (hk : (ks.map (fun x => x.id)).Nodup) :
    (∀ (i : Nat) (r : SemanticRow), ds[i]? = some r → (∀ s ∈ ks, s.id ≠ r.id) →
      ∃ e ∈ fuseResults false ds ks, e.id = r.id
        ∧ e.rrf_score = 1 / ((DEFAULT_RRF_K_VALUE : ℚ) + (i : ℚ))
        ∧ e.search_type = .semantic)
  ∧ (∀ (j : Nat) (s : KeywordRow), ks[j]? = some s → (∀ r ∈ ds, r.id ≠ s.id) →
      ∃ e ∈ fuseResults false ds ks, e.id = s.id
        ∧ e.rrf_score = 1 / ((DEFAULT_RRF_K_VALUE : ℚ) + (j : ℚ))
        ∧ e.search_type = .keyword)
  ∧ (∀ (i j : Nat) (r : SemanticRow) (s : KeywordRow),
      ds[i]? = some r → ks[j]? = some s → s.id = r.id →
      ∃ e ∈ fuseResults false ds ks, e.id = r.id
        ∧ e.rrf_score = 1 / ((DEFAULT_RRF_K_VALUE : ℚ) + (i : ℚ))
            + 1 / ((DEFAULT_RRF_K_VALUE : ℚ) + (j : ℚ))
        ∧ e.search_type = .hybrid)
  ∧ (fuseResults false ds ks).Pairwise (fun a b => b.rrf_score ≤ a.rrf_score)
  ∧ DEFAULT_RRF_K_VALUE = 10
  ∧ (fuseResults false exDense exLex).map (fun e => (e.id, e.rrf_score, e.search_type))
      = [("B", 1/11 + 1/10, .hybrid), ("A", 1/10, .semantic), ("C", 1/11, .keyword)] := by
  refine ⟨?_, ?_, ?_, fuseResults_sorted false ds ks, rfl, ?_⟩
  · intro i r hir hnot
    have hfind := semanticPassGo_find_mem false ds 0 [] i r hir hd (by simp)
    rw [Nat.zero_add] at hfind
    have hkeep := keywordPassGo_find_absent false ks 0 (semanticPassGo false 0 [] ds) r.id
      (fun s hs => hnot s hs)
    rw [hfind] at hkeep
    refine ⟨mkSemEntry false i r, ?_, rfl, ?_, rfl⟩
    · unfold fuseResults
      rw [List.mem_mergeSort]
      exact List.mem_of_find?_eq_some hkeep
    · simp [mkSemEntry, rrfContribution]
  · intro j s hjs hnot
    have hnone : (semanticPassGo false 0 [] ds).find? (fun e => e.id == s.id) = none := by
      rw [semanticPassGo_find_absent false ds 0 [] s.id (fun r hr => hnot r hr)]
      rfl
    have hfind := keywordPassGo_find_mem false ks 0 (semanticPassGo false 0 [] ds) j s hjs hk
    rw [hnone] at hfind
    rw [Nat.zero_add] at hfind
    refine ⟨mkKeyEntry false j s, ?_, rfl, ?_, rfl⟩
    · unfold fuseResults
      rw [List.mem_mergeSort]
      exact List.mem_of_find?_eq_some hfind
    · simp [mkKeyEntry, rrfContribution]
  · intro i j r s hir hjs hsr
    have hsem := semanticPassGo_find_mem false ds 0 [] i r hir hd (by simp)
    rw [Nat.zero_add] at hsem
    have hfind := keywordPassGo_find_mem false ks 0 (semanticPassGo false 0 [] ds) j s hjs hk
    rw [hsr, hsem] at hfind
    rw [Nat.zero_add] at hfind
    refine ⟨combineKeyword false j (mkSemEntry false i r), ?_, rfl, ?_, rfl⟩
    · unfold fuseResults
      rw [List.mem_mergeSort]
      exact List.mem_of_find?_eq_some hfind
    · simp [combineKeyword, mkSemEntry, rrfContribution]
  · simp only [exDense, exLex, fuseResults, semanticPassGo, keywordPassGo, mapSet,
      applyKeyword, mkSemEntry, mkKeyEntry, combineKeyword, rrfContribution,
      DEFAULT_RRF_K_VALUE, exSemRow, exKeyRow]
    norm_num
    simp [List.mergeSort, List.splitInTwo, List.splitAt, List.splitAt.go, List.merge, rrfGE]
    norm_num

theorem buildResponse_results_eq (body : SearchRequest) (sem : List SemanticRow)
    (key : List KeywordRow) (backend : FallbackBackend) :
    (buildResponse body sem key backend).results
      = sortDocs (preSortedDocs body sem key backend) := rfl

theorem densityValue_nonneg (g : DocumentResult) : 0 ≤ densityValue g := by
  unfold densityValue
  dsimp only
  split
  · exact le_refl 0
  · split
    · exact div_nonneg (Nat.cast_nonneg _) (Nat.cast_nonneg _)
    · exact le_refl 0

theorem densityTotal_pos (g : DocumentResult) (h : g.chunks ≠ []) : 0 < densityTotal g := by
  have hlen : 0 < g.chunks.length := List.length_pos.mpr h
  unfold densityTotal
  cases hh : g.chunks.head? with
  | none =>
    rw [List.head?_eq_none_iff] at hh
    exact absurd hh h
  | some c =>
    dsimp only
    cases ht : c.total_chunk_count with
    | none => exact hlen
    | some t =>
      dsimp only
      split
      · exact hlen
      · omega

theorem densityTotal_applyDensity (e : Bool) (g : DocumentResult) :
    densityTotal (applyDensity e g) = densityTotal g := by
  unfold densityTotal
  rw [applyDensity_chunks]

/-- C3 (counterexample): with density calculation enabled, a document
whose chunk is missing `total_chunk_count` gets density `1` (the matched
count substitutes for the total), not `0` as the claim states; and a
document with recorded total `1` but two matched chunks gets density `2`,
outside `[0, 1]`. -/
theorem relevance_density_cex :
    (buildResponse exBodyNoFallback [exSemRow "c1" "d1" (8/10) none] [] deadBackend).results.map
        (fun d => d.relevance_density) = [1]
  ∧ (buildResponse exBodyNoFallback
        [exSemRow "c1" "d1" (8/10) (some 1), exSemRow "c2" "d1" (7/10) (some 1)] []
        deadBackend).results.map (fun d => d.relevance_density) = [2]
  ∧ exBodyNoFallback.enable_density_calc ≠ some false
  ∧ ¬ ((1 : ℚ) = 0)
  ∧ ¬ ((2 : ℚ) ≤ 1) := by
  refine ⟨?_, ?_, by decide, by norm_num, by norm_num⟩
  · simp [buildResponse, primaryFiltered, applyFilters, runFallback, combineWithFallback,
      fuseResults, semanticPassGo, keywordPassGo, mapSet, mkSemEntry, groupDocs, groupStep,
      addToDoc, updateDoc, freshDoc, mkChunkOut, applyDensity, densityValue, densityTotal,
      sortDocs, exBodyNoFallback, exBody, exSemRow, mdEmpty, List.mergeSort, List.splitInTwo,
      List.splitAt, List.splitAt.go, List.merge, rrfGE, bestRrfGE, rrfContribution,
      DEFAULT_RRF_K_VALUE, MIN_RESULTS_THRESHOLD]
  · simp [buildResponse, primaryFiltered, applyFilters, runFallback, combineWithFallback,
      fuseResults, semanticPassGo, keywordPassGo, mapSet, mkSemEntry, groupDocs, groupStep,
      addToDoc, updateDoc, freshDoc, mkChunkOut, applyDensity, densityValue, densityTotal,
      sortDocs, exBodyNoFallback, exBody, exSemRow, mdEmpty, List.mergeSort, List.splitInTwo,
      List.splitAt, List.splitAt.go, List.merge, rrfGE, bestRrfGE, rrfContribution,
      DEFAULT_RRF_K_VALUE, MIN_RESULTS_THRESHOLD]
    norm_num [buildResponse, primaryFiltered, applyFilters, runFallback, combineWithFallback,
      fuseResults, semanticPassGo, keywordPassGo, mapSet, mkSemEntry, groupDocs, groupStep,
      addToDoc, updateDoc, freshDoc, mkChunkOut, applyDensity, densityValue, densityTotal,
      sortDocs, exBodyNoFallback, exBody, exSemRow, mdEmpty, List.mergeSort, List.splitInTwo,
      List.splitAt, List.splitAt.go, List.merge, rrfGE, bestRrfGE, rrfContribution,
      DEFAULT_RRF_K_VALUE, MIN_RESULTS_THRESHOLD]

/-- C3 (amended): every emitted density is nonnegative; it is `0` for all
documents when density calculation is disabled; when enabled, a document
with at least one chunk has density `matched / total` where `total` is
the first chunk's `total_chunk_count` when present and nonzero, and the
matched count itself otherwise — so a missing total yields density `1`,
not `0`, and the value only stays within `[0, 1]` when the recorded total
is at least the matched count (there is no clamping). -/
theorem relevance_density_formula (body : SearchRequest) (sem : List SemanticRow)
    (key : List KeywordRow) (backend : FallbackBackend) :
    ∀ d ∈ (buildResponse body sem key backend).results,
      0 ≤ d.relevance_density
    ∧ (body.enable_density_calc = some false → d.relevance_density = 0)
    ∧ (body.enable_density_calc ≠ some false → d.chunks ≠ [] →
        d.relevance_density = (d.chunks.length : ℚ) / (densityTotal d : ℚ)
      ∧ (∀ (c : ChunkOut) (t : Nat), d.chunks.head? = some c → c.total_chunk_count = some t →
            0 < t → densityTotal d = t ∧ (d.chunks.length ≤ t → d.relevance_density ≤ 1))
      ∧ (∀ c : ChunkOut, d.chunks.head? = some c → c.total_chunk_count = none →
            d.relevance_density = 1)) := by
  intro d hd
  rw [buildResponse_results_eq] at hd
  unfold sortDocs at hd
  rw [List.mem_mergeSort] at hd
  unfold preSortedDocs at hd
  obtain ⟨g, hg, rfl⟩ := List.mem_map.mp hd
  have hdens : (applyDensity (body.enable_density_calc ≠ some false) g).relevance_density
      = if body.enable_density_calc ≠ some false then densityValue g else 0 := by
    simp [applyDensity]
  refine ⟨?_, ?_, ?_⟩
  · rw [hdens]
    split
    · exact densityValue_nonneg g
    · exact le_refl 0
  · intro hdis
    rw [hdens, if_neg (by simp [hdis])]
  · intro hen hne
    rw [applyDensity_chunks] at hne
    have hlen : g.chunks.length ≠ 0 := fun h0 => hne (List.length_eq_zero.mp h0)
    have hpos := densityTotal_pos g hne
    have hval : densityValue g = (g.chunks.length : ℚ) / (densityTotal g : ℚ) := by
      unfold densityValue
      dsimp only
      rw [if_neg hlen, if_pos hpos]
    have hdval : (applyDensity (body.enable_density_calc ≠ some false) g).relevance_density
        = (g.chunks.length : ℚ) / (densityTotal g : ℚ) := by
      rw [hdens, if_pos hen, hval]
    refine ⟨?_, ?_, ?_⟩
    · rw [hdval, applyDensity_chunks, densityTotal_applyDensity]
    · intro c t hhead htot htpos
      rw [applyDensity_chunks] at hhead
      have htotal : densityTotal g = t := by
        unfold densityTotal
        rw [hhead]
        dsimp only
        rw [htot]
        dsimp only
        rw [if_neg (by omega)]
      refine ⟨by rw [densityTotal_applyDensity, htotal], ?_⟩
      intro hle
      rw [applyDensity_chunks] at hle
      rw [hdval, htotal]
      rw [div_le_one (by exact_mod_cast htpos)]
      exact_mod_cast hle
    · intro c hhead hnone
      rw [applyDensity_chunks] at hhead
      have htotal : densityTotal g = g.chunks.length := by
        unfold densityTotal
        rw [hhead]
        dsimp only
        rw [hnone]
      rw [hdval, htotal]
      rw [div_self]
      exact_mod_cast hlen

/-- Witness for the amended C3 theorem: one matched chunk against a
recorded total of 10 yields density 1/10, and every emitted density in
that response is nonnegative by the theorem. -/
theorem relevance_density_formula_witness :
    ((buildResponse exBodyNoFallback [exSemRow "c1" "d1" (8/10) (some 10)] []
        deadBackend).results.map (fun d => d.relevance_density) = [1/10])
  ∧ ((buildResponse exBodyNoFallback [exSemRow "c1" "d1" (8/10) (some 10)] []
        deadBackend).results.all
        (fun d => decide (0 ≤ d.relevance_density))) = true := by
  constructor
  · simp [buildResponse, primaryFiltered, applyFilters, runFallback, combineWithFallback,
      fuseResults, semanticPassGo, keywordPassGo, mapSet, mkSemEntry, groupDocs, groupStep,
      addToDoc, updateDoc, freshDoc, mkChunkOut, applyDensity, densityValue, densityTotal,
      sortDocs, exBodyNoFallback, exBody, exSemRow, mdEmpty, List.mergeSort, List.splitInTwo,
      List.splitAt, List.splitAt.go, List.merge, rrfGE, bestRrfGE, rrfContribution,
      DEFAULT_RRF_K_VALUE, MIN_RESULTS_THRESHOLD]
  · rw [List.all_eq_true]
    intro d hd
    have h := relevance_density_formula exBodyNoFallback [exSemRow "c1" "d1" (8/10) (some 10)]
      [] deadBackend d hd
    exact decide_eq_true h.1

/-- C6 (counterexample): a primary keyword hit for `docA` (no raw
semantic score) and a fallback semantic hit for `docB` (raw similarity
0.9) tie at `best_rrf_score = 1/10`; the emitted order keeps `docA`
first, although the claimed tie-breaking (descending
`best_raw_similarity`, then `document_id`) would put `docB` first. -/
theorem document_order_tiebreak_cex :
    ((buildResponse exBody [] [exKeyRow "k1" "docA" (5/10) (some 1)] tieBackend).results.map
        (fun d => (d.document_id, d.best_rrf_score, d.best_raw_similarity)))
      = [("docA", 1/10, 0), ("docB", 1/10, 9/10)]
  ∧ ¬ ((buildResponse exBody [] [exKeyRow "k1" "docA" (5/10) (some 1)] tieBackend).results.Pairwise
        (fun a b => b.best_rrf_score < a.best_rrf_score
          ∨ (b.best_rrf_score = a.best_rrf_score
              ∧ (b.best_raw_similarity < a.best_raw_similarity
                ∨ (b.best_raw_similarity = a.best_raw_similarity
                    ∧ a.document_id ≤ b.document_id))))) := by
  constructor
  · simp [buildResponse, primaryFiltered, applyFilters, runFallback, combineWithFallback,
      fuseResults, semanticPassGo, keywordPassGo, mapSet, mkSemEntry, mkKeyEntry,
      combineKeyword, applyKeyword, groupDocs, groupStep, addToDoc, updateDoc, freshDoc,
      mkChunkOut, applyDensity, densityValue, densityTotal, sortDocs, exBody, exSemRow,
      exKeyRow, mdEmpty, tieBackend, fallbackThreshold, resolvedMinSimilarity, resolvedLimit,
      jsOrNat, jsOrRat, DEFAULT_SIMILARITY_THRESHOLD, DEFAULT_MAX_CHUNKS, List.mergeSort,
      List.splitInTwo, List.splitAt, List.splitAt.go, List.merge, rrfGE, bestRrfGE,
      rrfContribution, DEFAULT_RRF_K_VALUE, MIN_RESULTS_THRESHOLD]
  · simp [buildResponse, primaryFiltered, applyFilters, runFallback, combineWithFallback,
      fuseResults, semanticPassGo, keywordPassGo, mapSet, mkSemEntry, mkKeyEntry,
      combineKeyword, applyKeyword, groupDocs, groupStep, addToDoc, updateDoc, freshDoc,
      mkChunkOut, applyDensity, densityValue, densityTotal, sortDocs, exBody, exSemRow,
      exKeyRow, mdEmpty, tieBackend, fallbackThreshold, resolvedMinSimilarity, resolvedLimit,
      jsOrNat, jsOrRat, DEFAULT_SIMILARITY_THRESHOLD, DEFAULT_MAX_CHUNKS, List.mergeSort,
      List.splitInTwo, List.splitAt, List.splitAt.go, List.merge, rrfGE, bestRrfGE,
      rrfContribution, DEFAULT_RRF_K_VALUE, MIN_RESULTS_THRESHOLD, List.pairwise_cons]
    norm_num

/-- C6 (amended): the emitted DocumentResults are ordered by descending
`best_rrf_score` only (`part_000` lines 537-538); ties are left in
grouping order by the stable sort — neither `best_raw_similarity` nor
`document_id` acts as a tie-breaker. -/
theorem document_results_sorted_by_best_rrf (body : SearchRequest) (sem : List SemanticRow)
    (key : List KeywordRow) (backend : FallbackBackend) :
    (buildResponse body sem key backend).results.Pairwise
      (fun a b => b.best_rrf_score ≤ a.best_rrf_score) := by
  rw [buildResponse_results_eq]
  exact sortDocs_sorted _

theorem runFallback_snd_ids_nodup (body : SearchRequest) (backend : FallbackBackend)
    (filtered : List FusedHit) :
    (((runFallback body backend filtered).2).map (fun x => x.id)).Nodup := by
  unfold runFallback
  dsimp only
  split
  · split
    · simp
    · split
      · exact fuseResults_ids_nodup true _ _
      · simp
  · simp

/-- C5: across one response, all emitted chunk ids (fallback hits
included) are pairwise distinct: fusion deduplicates by id, the
post-filter only removes entries, the fallback union drops ids already
present, and grouping redistributes the final hit list without
duplication. -/
theorem emitted_chunk_ids_nodup (body : SearchRequest) (sem : List SemanticRow)
    (key : List KeywordRow) (backend : FallbackBackend) :
    (((buildResponse body sem key backend).results.map
        (fun d => d.chunks.map (fun c => c.id))).flatten).Nodup := by
  have h1 : ((finalFused body sem key backend).map (fun x => x.id)).Nodup := by
    unfold finalFused
    exact combineWithFallback_ids_nodup _ _ _
      (primaryFiltered_ids_nodup body sem key)
      (runFallback_snd_ids_nodup body backend _)
  have h2 := groupDocs_flatten_perm (body.debug = some true) (finalFused body sem key backend)
  have h3 : (preSortedDocs body sem key backend).map chunkIds
      = (groupDocs (body.debug = some true) (finalFused body sem key backend)).map chunkIds := by
    unfold preSortedDocs
    rw [List.map_map]
    apply List.map_congr_left
    intro g _
    show chunkIds (applyDensity _ g) = chunkIds g
    unfold chunkIds
    rw [applyDensity_chunks]
  have h4 : List.Perm (sortDocs (preSortedDocs body sem key backend))
      (preSortedDocs body sem key backend) := List.mergeSort_perm _ _
  have h5 := (h4.map chunkIds).flatten
  rw [h3] at h5
  have h6 := h5.trans h2
  rw [buildResponse_results_eq]
  show (((sortDocs (preSortedDocs body sem key backend)).map chunkIds).flatten).Nodup
  exact h6.nodup_iff.mpr h1

theorem runFallback_not_triggered (body : SearchRequest) (backend : FallbackBackend)
    (filtered : List FusedHit)
    (h : ¬ ((body.enable_fallback ≠ some false) ∧ filtered.length < MIN_RESULTS_THRESHOLD)) :
    runFallback body backend filtered = (false, []) := by
  unfold runFallback
  dsimp only
  rw [if_neg h]

theorem runFallback_error (body : SearchRequest) (backend : FallbackBackend)
    (filtered : List FusedHit)
    (h : backend.thrown = true
      ∨ backend.sem (fallbackThreshold (resolvedMinSimilarity body)) (resolvedLimit body * 2)
          = .err
      ∨ backend.key (resolvedLimit body * 2) = .err) :
    runFallback body backend filtered = (false, []) := by
  unfold runFallback
  dsimp only
  split
  · by_cases hth : backend.thrown = true
    · rw [if_pos hth]
    · rw [if_neg hth]
      rcases h with h1 | h1 | h1
      · exact absurd h1 hth
      · rw [h1]
      · rw [h1]
        cases backend.sem (fallbackThreshold (resolvedMinSimilarity body))
          (resolvedLimit body * 2) <;> rfl
  · rfl

theorem runFallback_success (body : SearchRequest) (backend : FallbackBackend)
    (filtered : List FusedHit) (bs : List SemanticRow) (bk : List KeywordRow)
    (hen : body.enable_fallback ≠ some false)
    (hlen : filtered.length < MIN_RESULTS_THRESHOLD)
    (hth : backend.thrown = false)
    (hsem : backend.sem (fallbackThreshold (resolvedMinSimilarity body)) (resolvedLimit body * 2)
        = .ok bs)
    (hkey : backend.key (resolvedLimit body * 2) = .ok bk) :
    runFallback body backend filtered = (true, fuseResults true bs bk) := by
  unfold runFallback
  dsimp only
  rw [if_pos ⟨hen, hlen⟩, hth]
  rw [if_neg Bool.false_ne_true]
  rw [hsem, hkey]

/-- C4: behavior of the fallback pass (`part_000` lines 348-438).  With
fallback enabled it runs exactly when the post-filter output has fewer
than `MIN_RESULTS_THRESHOLD = 3` hits: (i) otherwise the response does
not depend on the fallback backend at all; (ii) the backend is only
consulted at threshold `max(0.3, minSimilarity − 0.2)` and doubled
`max_results`; (iii) on success, its fused hits all carry `*_fallback`
tags and are unioned after the primary results keyed by chunk id with
primary entries kept on conflict; (iv) on a thrown or returned error the
response equals the one built with no usable fallback — the primary
result is returned unchanged. -/
theorem fallback_pass_spec (body : SearchRequest) (sem : List SemanticRow)
    (key : List KeywordRow) :
    MIN_RESULTS_THRESHOLD = 3
  ∧ (∀ backend backend' : FallbackBackend,
      ¬ ((body.enable_fallback ≠ some false)
          ∧ (primaryFiltered body sem key).length < MIN_RESULTS_THRESHOLD) →
      buildResponse body sem key backend = buildResponse body sem key backend')
  ∧ (∀ backend backend' : FallbackBackend,
      backend.thrown = backend'.thrown →
      backend.sem (fallbackThreshold (resolvedMinSimilarity body)) (resolvedLimit body * 2)
        = backend'.sem (fallbackThreshold (resolvedMinSimilarity body)) (resolvedLimit body * 2) →
      backend.key (resolvedLimit body * 2) = backend'.key (resolvedLimit body * 2) →
      buildResponse body sem key backend = buildResponse body sem key backend')
  ∧ (∀ (backend : FallbackBackend) (bs : List SemanticRow) (bk : List KeywordRow),
      body.enable_fallback ≠ some false →
      (primaryFiltered body sem key).length < MIN_RESULTS_THRESHOLD →
      backend.thrown = false →
      backend.sem (fallbackThreshold (resolvedMinSimilarity body)) (resolvedLimit body * 2)
        = .ok bs →
      backend.key (resolvedLimit body * 2) = .ok bk →
      runFallback body backend (primaryFiltered body sem key) = (true, fuseResults true bs bk)
      ∧ finalFused body sem key backend
          = primaryFiltered body sem key
            ++ (fuseResults true bs bk).filter
                (fun r => ¬ ((primaryFiltered body sem key).map (fun x => x.id)).contains r.id)
      ∧ (∀ e ∈ fuseResults true bs bk, isFallbackTag e.search_type)
      ∧ (buildResponse body sem key backend).fallback_info.used = true)
  ∧ (∀ backend : FallbackBackend,
      (backend.thrown = true
        ∨ backend.sem (fallbackThreshold (resolvedMinSimilarity body)) (resolvedLimit body * 2)
            = .err
        ∨ backend.key (resolvedLimit body * 2) = .err) →
      buildResponse body sem key backend = buildResponse body sem key deadBackend
      ∧ finalFused body sem key backend = primaryFiltered body sem key
      ∧ (buildResponse body sem key backend).fallback_info.used = false) := by
  refine ⟨rfl, ?_, ?_, ?_, ?_⟩
  · intro backend backend' h
    unfold buildResponse
    dsimp only
    rw [runFallback_not_triggered body backend _ h, runFallback_not_triggered body backend' _ h]
  · intro backend backend' h1 h2 h3
    have heq : runFallback body backend (primaryFiltered body sem key)
        = runFallback body backend' (primaryFiltered body sem key) := by
      unfold runFallback
      rw [h1, h2, h3]
    unfold buildResponse
    dsimp only
    rw [heq]
  · intro backend bs bk hen hlen hth hsem hkey
    have hrun := runFallback_success body backend _ bs bk hen hlen hth hsem hkey
    refine ⟨hrun, ?_, fuseResults_fallback_tags bs bk, ?_⟩
    · unfold finalFused
      rw [hrun]
      unfold combineWithFallback
      dsimp only
      by_cases hl : (fuseResults true bs bk).length > 0
      · rw [if_pos ⟨rfl, hl⟩]
      · rw [if_neg (by simp [hl])]
        have : fuseResults true bs bk = [] := by
          cases hfe : fuseResults true bs bk with
          | nil => rfl
          | cons a l => rw [hfe] at hl; simp at hl
        rw [this]
        simp
    · unfold buildResponse
      dsimp only
      rw [hrun]
      rfl
  · intro backend h
    have hrun := runFallback_error body backend (primaryFiltered body sem key) h
    have hdead : runFallback body deadBackend (primaryFiltered body sem key) = (false, []) := by
      apply runFallback_error
      right
      left
      rfl
    refine ⟨?_, ?_, ?_⟩
    · unfold buildResponse
      dsimp only
      rw [hrun, hdead]
    · unfold finalFused
      rw [hrun]
      rfl
    · unfold buildResponse
      dsimp only
      rw [hrun]
      rfl

/-- Witness for the C2 fusion theorem at the specification's example: the
chunk `B`, ranked 1 in the dense list and 0 in the lexical list, fuses to
`1/11 + 1/10` with tag `hybrid`. -/
theorem rrf_fusion_spec_witness :
    ∃ e ∈ fuseResults false exDense exLex,
      e.id = (exSemRow "B" "d1" (8/10) none).id
      ∧ e.rrf_score = 1 / ((DEFAULT_RRF_K_VALUE : ℚ) + ((1 : Nat) : ℚ))
          + 1 / ((DEFAULT_RRF_K_VALUE : ℚ) + ((0 : Nat) : ℚ))
      ∧ e.search_type = .hybrid := by
  have h := rrf_fusion_spec exDense exLex (by decide) (by decide)
  exact h.2.2.1 1 0 (exSemRow "B" "d1" (8/10) none) (exKeyRow "B" "d1" (5/10) none)
    (by rfl) (by rfl) rfl

/-- Witness for the C4 fallback theorem at a concrete triggering request:
one primary keyword hit, a fallback returning an overlapping and a new
chunk; the response unions them with the primary entry kept. -/
theorem fallback_pass_spec_witness :
    runFallback exBody unionBackend (primaryFiltered exBody [] exKeyOne)
      = (true, fuseResults true unionRows [])
  ∧ finalFused exBody [] exKeyOne unionBackend
      = primaryFiltered exBody [] exKeyOne
        ++ (fuseResults true unionRows []).filter
            (fun r => ¬ ((primaryFiltered exBody [] exKeyOne).map (fun x => x.id)).contains r.id)
  ∧ (∀ e ∈ fuseResults true unionRows [], isFallbackTag e.search_type)
  ∧ (buildResponse exBody [] exKeyOne unionBackend).fallback_info.used = true := by
  have hlen : (primaryFiltered exBody [] exKeyOne).length < MIN_RESULTS_THRESHOLD := by
    simp [primaryFiltered, applyFilters, fuseResults, semanticPassGo, keywordPassGo,
      applyKeyword, mapSet, mkKeyEntry, exKeyOne, exBody, MIN_RESULTS_THRESHOLD]
  have h := (fallback_pass_spec exBody [] exKeyOne).2.2.2.1 unionBackend unionRows []
    (by decide) hlen rfl rfl rfl
  exact h

end RagEngine
